import Mathlib

/-! Image-service acceptance helpers.

A shallow embedding of `acceptance/openstack/imageservice/v2/imageservice.go`:
the three fixture helpers `CreateEmptyImage`, `DeleteImage` and `CreateTask`.

The helpers are effectful Go code.  Their effects are made explicit:

* the test context `t *testing.T` is a value of type `T` (output lines and the
  failed flag) that is threaded through every helper;
* the service client is a record of response functions over an arbitrary
  server state `σ`; every remote call is appended to a trace, so that the
  calls a helper issues (and their payloads) can be stated;
* a Go result pair `(*X, error)` is a pair of options, `none` being `nil`;
* a helper ends by returning, by `t.Fatalf` (the test goroutine exits) or by a
  nil-pointer dereference.
-/

namespace ImageService

/-! ## Data model -/

/-- A Go `error` value, identified by its message. -/
structure GoError where
  msg : String
  deriving DecidableEq

/-- The dynamically typed Go values (`interface{}`) found in property maps and
task inputs, as far as the helpers build or inspect them: `nil` is the nil
interface, `str` a string, `map` a `map[string]interface{}`. -/
inductive Value where
  | nil : Value
  | str (s : String) : Value
  | map (entries : List (String × Value)) : Value

/-- Go map indexing `m[k]` on a `map[string]interface{}`: the value stored
under `k`, or the zero value (the nil interface) when the key is absent. -/
def mapIndex : List (String × Value) → String → Value
  | [], _ => Value.nil
  | (k, v) :: rest, key => if k = key then v else mapIndex rest key

/-- Go `==` on two interface values, for the operand kinds that reach it here:
equal dynamic type and equal value.  (Go panics when both operands are maps;
every comparison in this file has a string on one side.) -/
def interfaceEq : Value → Value → Bool
  | Value.nil, Value.nil => true
  | Value.str a, Value.str b => decide (a = b)
  | _, _ => false

/-- Modelled from the spec: `images.ImageVisibility`, whose declaration is not
part of the source file; the helper uses `ImageVisibilityPrivate`. -/
inductive ImageVisibility where
  | ImageVisibilityPublic
  | ImageVisibilityPrivate
  | ImageVisibilityShared
  | ImageVisibilityCommunity
  deriving DecidableEq

/-- Modelled from the spec: `images.CreateOpts`, whose declaration is not part
of the source file; the fields are those the composite literal in
`CreateEmptyImage` sets.  `Protected` and `Visibility` are pointers. -/
structure CreateOpts where
  Name : String
  ContainerFormat : String
  DiskFormat : String
  MinDisk : Int
  MinRAM : Int
  Protected : Option Bool
  Visibility : Option ImageVisibility
  Properties : List (String × String)
  Tags : List String
  deriving DecidableEq

/-- Modelled from the spec: `images.Image`, whose declaration is not part of
the source file: "an identifier, a name, a disk/container format, visibility
and protection flags, free-form key/value properties, and a tag set". -/
structure Image where
  ID : String
  Name : String
  ContainerFormat : String
  DiskFormat : String
  Visibility : ImageVisibility
  Protected : Bool
  Properties : List (String × Value)
  Tags : List String

/-- Modelled from the spec: `tasks.CreateOpts`, whose declaration is not part
of the source file: a type tag and a nested input payload. -/
structure TaskCreateOpts where
  Type_ : String
  Input : List (String × Value)

/-- Modelled from the spec: `tasks.Task`, whose declaration is not part of the
source file: "an identifier, a type (e.g., "import"), and an input payload". -/
structure Task where
  ID : String
  Type_ : String
  Input : List (String × Value)

/-! ## The test context -/

/-- An argument of a `Logf`/`Errorf`/`Fatalf` call. -/
inductive Arg where
  | str (s : String) : Arg
  | value (v : Value) : Arg
  | image (p : Option Image) : Arg
  | err (e : GoError) : Arg

/-- Which `testing.T` method wrote an output line. -/
inductive Level where
  | log
  | error
  | fatal
  deriving DecidableEq

/-- One output line of the test: the method, its format string and its
arguments (the line is kept unformatted). -/
structure Entry where
  level : Level
  format : String
  args : List Arg

/-- The test context `*testing.T`: the output written so far and whether the
test has been marked as failed. -/
structure T where
  output : List Entry
  failed : Bool

/-- The method `t.Logf`: writes a line, does not mark the test as failed. -/
def T.Logf (t : T) (format : String) (args : List Arg) : T :=
  { t with output := t.output ++ [⟨Level.log, format, args⟩] }

/-- The method `t.Errorf`: `Logf` followed by `Fail`; execution continues. -/
def T.Errorf (t : T) (format : String) (args : List Arg) : T :=
  { output := t.output ++ [⟨Level.error, format, args⟩], failed := true }

/-- The method `t.Fatalf`: `Logf` followed by `FailNow`.  The value is the test
context left behind; the caller of `Fatalf` does not continue. -/
def T.Fatalf (t : T) (format : String) (args : List Arg) : T :=
  { output := t.output ++ [⟨Level.fatal, format, args⟩], failed := true }

/-- Modelled from the spec: `th.CheckEquals` of the vendored test-helper
package, which is not part of the source file.  The create-image helper is not
fail-fast (only the delete helper is), so the check is the non-fatal one: when
the two values differ it reports a failure with `Errorf` and returns. -/
def CheckEquals (t : T) (expected actual : Value) : T :=
  if interfaceEq expected actual then t
  else t.Errorf "expected %s but got %s" [Arg.value expected, Arg.value actual]

/-- Number of failures reported so far with `Errorf`. -/
def T.errorCount (t : T) : Nat :=
  (t.output.filter (fun e => decide (e.level = Level.error))).length

/-! ## The service client -/

/-- A remote call, with its payload. -/
inductive Call where
  | imagesCreate (opts : CreateOpts) : Call
  | imagesGet (id : String) : Call
  | imagesDelete (id : String) : Call
  | tasksCreate (opts : TaskCreateOpts) : Call
  | tasksGet (id : String) : Call

/-- The service client handle together with the service behind it: for each
operation of the client library, the extracted result and the next server
state.  `imagesCreate` stands for `images.Create(client, opts).Extract()`, and
likewise for the other four. -/
structure ServiceClient (σ : Type) where
  imagesCreate : CreateOpts → σ → (Option Image × Option GoError) × σ
  imagesGet : String → σ → (Option Image × Option GoError) × σ
  imagesDelete : String → σ → Option GoError × σ
  tasksCreate : TaskCreateOpts → σ → (Option Task × Option GoError) × σ
  tasksGet : String → σ → (Option Task × Option GoError) × σ

/-- Everything a helper can change: the test context, the server state and the
trace of remote calls issued so far. -/
structure World (σ : Type) where
  t : T
  server : σ
  trace : List Call

/-- How a helper ends: it returns a value, the test is terminated by
`t.Fatalf`, or a nil pointer is dereferenced. -/
inductive Outcome (α σ : Type) where
  | returned (value : α) (w : World σ) : Outcome α σ
  | fatal (w : World σ) : Outcome α σ
  | panicked (w : World σ) : Outcome α σ

/-- The world in which a helper ended. -/
def Outcome.world {α σ : Type} : Outcome α σ → World σ
  | Outcome.returned _ w => w
  | Outcome.fatal w => w
  | Outcome.panicked w => w

/-! ## The helpers -/

/-- The creation payload `createOpts` that `CreateEmptyImage` builds for the
name it drew (the composite literal together with the two locals `protected`
and `visibility` it points to). -/
def CreateEmptyImage.createOpts (name : String) : CreateOpts :=
  let protected_ := false
  let visibility := ImageVisibility.ImageVisibilityPrivate
  { Name := name
    ContainerFormat := "bare"
    DiskFormat := "qcow2"
    MinDisk := 0
    MinRAM := 0
    Protected := some protected_
    Visibility := some visibility
    Properties := [("architecture", "x86_64")]
    Tags := ["foo", "bar", "baz"] }

/-- The helper `CreateEmptyImage`.  `RandomString` stands for
`tools.RandomString`, which is not part of the source file. -/
def CreateEmptyImage {σ : Type} (RandomString : String → Nat → String)
    (client : ServiceClient σ) (w : World σ) :
    Outcome (Option Image × Option GoError) σ :=
  let name := RandomString "ACPTTEST" 16
  let t := w.t.Logf "Attempting to create image: %s" [Arg.str name]
  let createOpts := CreateEmptyImage.createOpts name
  match client.imagesCreate createOpts w.server with
  | ((image, some err), s) =>
    Outcome.returned (image, some err)
      ⟨t, s, w.trace ++ [Call.imagesCreate createOpts]⟩
  | ((none, none), s) =>
    -- `image.ID` on a nil image
    Outcome.panicked ⟨t, s, w.trace ++ [Call.imagesCreate createOpts]⟩
  | ((some image, none), s) =>
    let trace := w.trace ++ [Call.imagesCreate createOpts, Call.imagesGet image.ID]
    match client.imagesGet image.ID s with
    | ((_, some err), s) => Outcome.returned (some image, some err) ⟨t, s, trace⟩
    | ((none, none), s) =>
      -- `newImage.Name` on a nil image, after the log line
      Outcome.panicked
        ⟨t.Logf "Created image %s: %#v" [Arg.str name, Arg.image none], s, trace⟩
    | ((some newImage, none), s) =>
      let t := t.Logf "Created image %s: %#v" [Arg.str name, Arg.image (some newImage)]
      let t := CheckEquals t (Value.str newImage.Name) (Value.str name)
      let t := CheckEquals t (mapIndex newImage.Properties "architecture") (Value.str "x86_64")
      Outcome.returned (some newImage, none) ⟨t, s, trace⟩

/-- The helper `DeleteImage`. -/
def DeleteImage {σ : Type} (client : ServiceClient σ) (image : Option Image)
    (w : World σ) : Outcome Unit σ :=
  match image with
  | none => Outcome.panicked w -- `image.ID` on a nil image
  | some image =>
    let trace := w.trace ++ [Call.imagesDelete image.ID]
    match client.imagesDelete image.ID w.server with
    | (some err, s) =>
      Outcome.fatal
        ⟨w.t.Fatalf "Unable to delete image %s: %v" [Arg.str image.ID, Arg.err err], s, trace⟩
    | (none, s) =>
      Outcome.returned () ⟨w.t.Logf "Deleted image: %s" [Arg.str image.ID], s, trace⟩

/-- The constant `ImportImageURL`. -/
def ImportImageURL : String :=
  "http://download.cirros-cloud.net/0.4.0/cirros-0.4.0-x86_64-disk.img"

/-- The task-creation payload `opts` that `CreateTask` builds for a source
URL. -/
def CreateTask.opts (imageURL : String) : TaskCreateOpts :=
  { Type_ := "import"
    Input :=
      [ ("image_properties",
          Value.map [("container_format", Value.str "bare"), ("disk_format", Value.str "raw")]),
        ("import_from_format", Value.str "raw"),
        ("import_from", Value.str imageURL) ] }

/-- The helper `CreateTask`. -/
def CreateTask {σ : Type} (client : ServiceClient σ) (imageURL : String)
    (w : World σ) : Outcome (Option Task × Option GoError) σ :=
  let t := w.t.Logf "Attempting to create an Imageservice import task with image: %s"
    [Arg.str imageURL]
  let opts := CreateTask.opts imageURL
  match client.tasksCreate opts w.server with
  | ((_, some err), s) =>
    Outcome.returned (none, some err) ⟨t, s, w.trace ++ [Call.tasksCreate opts]⟩
  | ((none, none), s) =>
    -- `task.ID` on a nil task
    Outcome.panicked ⟨t, s, w.trace ++ [Call.tasksCreate opts]⟩
  | ((some task, none), s) =>
    let trace := w.trace ++ [Call.tasksCreate opts, Call.tasksGet task.ID]
    match client.tasksGet task.ID s with
    | ((_, some err), s) => Outcome.returned (none, some err) ⟨t, s, trace⟩
    | ((newTask, none), s) => Outcome.returned (newTask, none) ⟨t, s, trace⟩

/-! ## Concrete clients and worlds, used to exercise the helpers -/

/-- A client that answers every call with a fixed, scripted response and
counts the calls it has served in its state. -/
def scriptedClient (createImage getImage : Option Image × Option GoError)
    (deleteImage : Option GoError)
    (createTask getTask : Option Task × Option GoError) : ServiceClient Nat :=
  { imagesCreate := fun _ n => (createImage, n + 1)
    imagesGet := fun _ n => (getImage, n + 1)
    imagesDelete := fun _ n => (deleteImage, n + 1)
    tasksCreate := fun _ n => (createTask, n + 1)
    tasksGet := fun _ n => (getTask, n + 1) }

/-- A fresh test context in front of a service that has served no call. -/
def freshWorld : World Nat :=
  { t := { output := [], failed := false }, server := 0, trace := [] }

/-- A private bare/qcow2 image with the given identifier, name and
architecture property. -/
def sampleImage (id name : String) (arch : Value) : Image :=
  { ID := id
    Name := name
    ContainerFormat := "bare"
    DiskFormat := "qcow2"
    Visibility := ImageVisibility.ImageVisibilityPrivate
    Protected := false
    Properties := [("architecture", arch)]
    Tags := ["foo", "bar", "baz"] }

/-- An import task with the given identifier and type, carrying the input it
was created from. -/
def sampleTask (id type_ : String) : Task :=
  { ID := id, Type_ := type_, Input := (CreateTask.opts ImportImageURL).Input }

/-- An in-memory task service: the state is the list of stored tasks, newest
first.  Creating a task stores it under a fresh identifier with the requested
type and input; fetching looks the identifier up; it serves no image. -/
def memoryTaskClient : ServiceClient (List Task) :=
  { imagesCreate := fun _ s => ((none, some ⟨"Forbidden"⟩), s)
    imagesGet := fun _ s => ((none, some ⟨"Resource not found"⟩), s)
    imagesDelete := fun _ s => (some ⟨"Resource not found"⟩, s)
    tasksCreate := fun opts s =>
      let task : Task :=
        { ID := "task-" ++ toString s.length, Type_ := opts.Type_, Input := opts.Input }
      ((some task, none), task :: s)
    tasksGet := fun id s =>
      match s.find? (fun task => decide (task.ID = id)) with
      | some task => ((some task, none), s)
      | none => ((none, some ⟨"Resource not found"⟩), s) }

/-- A name generator that always draws the same name. -/
def fixedName (_pre : String) (_n : Nat) : String := "ACPTTEST-fixed"

/-- The error a service reports for an unknown image. -/
def notFound : GoError := ⟨"Resource not found"⟩

/-- The error a service reports when it refuses a request. -/
def forbidden : GoError := ⟨"Forbidden"⟩

/-! ## Unfolding lemmas: the outcome of a helper on each path -/

/-- The outcome of `CreateEmptyImage` when the create call reports an error. -/
theorem CreateEmptyImage_eq_of_create_error {σ : Type}
    (RandomString : String → Nat → String) (client : ServiceClient σ) (w : World σ)
    (image : Option Image) (e : GoError) (s : σ)
    (h : client.imagesCreate (CreateEmptyImage.createOpts (RandomString "ACPTTEST" 16)) w.server
          = ((image, some e), s)) :
    CreateEmptyImage RandomString client w
      = Outcome.returned (image, some e)
          ⟨w.t.Logf "Attempting to create image: %s" [Arg.str (RandomString "ACPTTEST" 16)], s,
            w.trace
              ++ [Call.imagesCreate (CreateEmptyImage.createOpts (RandomString "ACPTTEST" 16))]⟩ := by
  simp [CreateEmptyImage, h]

/-- The outcome of `CreateEmptyImage` when the create call succeeds and the
fetch call reports an error. -/
theorem CreateEmptyImage_eq_of_fetch_error {σ : Type}
    (RandomString : String → Nat → String) (client : ServiceClient σ) (w : World σ)
    (image : Image) (s : σ) (newImage : Option Image) (e : GoError) (s2 : σ)
    (h : client.imagesCreate (CreateEmptyImage.createOpts (RandomString "ACPTTEST" 16)) w.server
          = ((some image, none), s))
    (h2 : client.imagesGet image.ID s = ((newImage, some e), s2)) :
    CreateEmptyImage RandomString client w
      = Outcome.returned (some image, some e)
          ⟨w.t.Logf "Attempting to create image: %s" [Arg.str (RandomString "ACPTTEST" 16)], s2,
            w.trace
              ++ [Call.imagesCreate (CreateEmptyImage.createOpts (RandomString "ACPTTEST" 16)),
                  Call.imagesGet image.ID]⟩ := by
  simp [CreateEmptyImage, h, h2]

/-- The outcome of `CreateEmptyImage` when both calls succeed. -/
theorem CreateEmptyImage_eq_of_success {σ : Type}
    (RandomString : String → Nat → String) (client : ServiceClient σ) (w : World σ)
    (image : Image) (s : σ) (newImage : Image) (s2 : σ)
    (h : client.imagesCreate (CreateEmptyImage.createOpts (RandomString "ACPTTEST" 16)) w.server
          = ((some image, none), s))
    (h2 : client.imagesGet image.ID s = ((some newImage, none), s2)) :
    CreateEmptyImage RandomString client w
      = Outcome.returned (some newImage, none)
          ⟨CheckEquals
              (CheckEquals
                ((w.t.Logf "Attempting to create image: %s"
                    [Arg.str (RandomString "ACPTTEST" 16)]).Logf
                  "Created image %s: %#v"
                  [Arg.str (RandomString "ACPTTEST" 16), Arg.image (some newImage)])
                (Value.str newImage.Name) (Value.str (RandomString "ACPTTEST" 16)))
              (mapIndex newImage.Properties "architecture") (Value.str "x86_64"),
            s2,
            w.trace
              ++ [Call.imagesCreate (CreateEmptyImage.createOpts (RandomString "ACPTTEST" 16)),
                  Call.imagesGet image.ID]⟩ := by
  simp [CreateEmptyImage, h, h2]

/-- The outcome of `CreateEmptyImage` when the create call reports no error
and no image: dereferencing the nil image panics. -/
theorem CreateEmptyImage_eq_of_create_nil {σ : Type}
    (RandomString : String → Nat → String) (client : ServiceClient σ) (w : World σ) (s : σ)
    (h : client.imagesCreate (CreateEmptyImage.createOpts (RandomString "ACPTTEST" 16)) w.server
          = ((none, none), s)) :
    CreateEmptyImage RandomString client w
      = Outcome.panicked
          ⟨w.t.Logf "Attempting to create image: %s" [Arg.str (RandomString "ACPTTEST" 16)], s,
            w.trace
              ++ [Call.imagesCreate (CreateEmptyImage.createOpts (RandomString "ACPTTEST" 16))]⟩ := by
  simp [CreateEmptyImage, h]

/-- The outcome of `CreateEmptyImage` when the fetch call reports no error and
no image: dereferencing the nil image panics. -/
theorem CreateEmptyImage_eq_of_fetch_nil {σ : Type}
    (RandomString : String → Nat → String) (client : ServiceClient σ) (w : World σ)
    (image : Image) (s : σ) (s2 : σ)
    (h : client.imagesCreate (CreateEmptyImage.createOpts (RandomString "ACPTTEST" 16)) w.server
          = ((some image, none), s))
    (h2 : client.imagesGet image.ID s = ((none, none), s2)) :
    CreateEmptyImage RandomString client w
      = Outcome.panicked
          ⟨(w.t.Logf "Attempting to create image: %s"
                [Arg.str (RandomString "ACPTTEST" 16)]).Logf
              "Created image %s: %#v" [Arg.str (RandomString "ACPTTEST" 16), Arg.image none],
            s2,
            w.trace
              ++ [Call.imagesCreate (CreateEmptyImage.createOpts (RandomString "ACPTTEST" 16)),
                  Call.imagesGet image.ID]⟩ := by
  simp [CreateEmptyImage, h, h2]

/-- The outcome of `CreateTask` when the create call reports an error. -/
theorem CreateTask_eq_of_create_error {σ : Type} (client : ServiceClient σ)
    (imageURL : String) (w : World σ) (task : Option Task) (e : GoError) (s : σ)
    (h : client.tasksCreate (CreateTask.opts imageURL) w.server = ((task, some e), s)) :
    CreateTask client imageURL w
      = Outcome.returned (none, some e)
          ⟨w.t.Logf "Attempting to create an Imageservice import task with image: %s"
              [Arg.str imageURL], s,
            w.trace ++ [Call.tasksCreate (CreateTask.opts imageURL)]⟩ := by
  simp [CreateTask, h]

/-- The outcome of `CreateTask` when the create call reports no error and no
task: dereferencing the nil task panics. -/
theorem CreateTask_eq_of_create_nil {σ : Type} (client : ServiceClient σ)
    (imageURL : String) (w : World σ) (s : σ)
    (h : client.tasksCreate (CreateTask.opts imageURL) w.server = ((none, none), s)) :
    CreateTask client imageURL w
      = Outcome.panicked
          ⟨w.t.Logf "Attempting to create an Imageservice import task with image: %s"
              [Arg.str imageURL], s,
            w.trace ++ [Call.tasksCreate (CreateTask.opts imageURL)]⟩ := by
  simp [CreateTask, h]

/-- The outcome of `CreateTask` when the create call succeeds and the fetch
call reports an error. -/
theorem CreateTask_eq_of_fetch_error {σ : Type} (client : ServiceClient σ)
    (imageURL : String) (w : World σ) (task : Task) (s : σ) (newTask : Option Task)
    (e : GoError) (s2 : σ)
    (h : client.tasksCreate (CreateTask.opts imageURL) w.server = ((some task, none), s))
    (h2 : client.tasksGet task.ID s = ((newTask, some e), s2)) :
    CreateTask client imageURL w
      = Outcome.returned (none, some e)
          ⟨w.t.Logf "Attempting to create an Imageservice import task with image: %s"
              [Arg.str imageURL], s2,
            w.trace ++ [Call.tasksCreate (CreateTask.opts imageURL), Call.tasksGet task.ID]⟩ := by
  simp [CreateTask, h, h2]

/-- The outcome of `CreateTask` when the create call succeeds and the fetch
call reports no error. -/
theorem CreateTask_eq_of_success {σ : Type} (client : ServiceClient σ)
    (imageURL : String) (w : World σ) (task : Task) (s : σ) (newTask : Option Task) (s2 : σ)
    (h : client.tasksCreate (CreateTask.opts imageURL) w.server = ((some task, none), s))
    (h2 : client.tasksGet task.ID s = ((newTask, none), s2)) :
    CreateTask client imageURL w
      = Outcome.returned (newTask, none)
          ⟨w.t.Logf "Attempting to create an Imageservice import task with image: %s"
              [Arg.str imageURL], s2,
            w.trace ++ [Call.tasksCreate (CreateTask.opts imageURL), Call.tasksGet task.ID]⟩ := by
  simp [CreateTask, h, h2]

/-- The outcome of `DeleteImage` when the delete call reports an error. -/
theorem DeleteImage_eq_of_error {σ : Type} (client : ServiceClient σ) (image : Image)
    (w : World σ) (e : GoError) (s : σ)
    (h : client.imagesDelete image.ID w.server = (some e, s)) :
    DeleteImage client (some image) w
      = Outcome.fatal
          ⟨w.t.Fatalf "Unable to delete image %s: %v" [Arg.str image.ID, Arg.err e], s,
            w.trace ++ [Call.imagesDelete image.ID]⟩ := by
  simp [DeleteImage, h]

/-- The outcome of `DeleteImage` when the delete call succeeds. -/
theorem DeleteImage_eq_of_success {σ : Type} (client : ServiceClient σ) (image : Image)
    (w : World σ) (s : σ)
    (h : client.imagesDelete image.ID w.server = (none, s)) :
    DeleteImage client (some image) w
      = Outcome.returned ()
          ⟨w.t.Logf "Deleted image: %s" [Arg.str image.ID], s,
            w.trace ++ [Call.imagesDelete image.ID]⟩ := by
  simp [DeleteImage, h]

/-! ## The test context: how the checks and log lines change it -/

/-- Comparing against a string succeeds exactly on that string. -/
theorem interfaceEq_str_iff (v : Value) (x : String) :
    interfaceEq v (Value.str x) = true ↔ v = Value.str x := by
  cases v <;> simp [interfaceEq]

/-- A log line reports no failure. -/
theorem errorCount_Logf (t : T) (format : String) (args : List Arg) :
    (t.Logf format args).errorCount = t.errorCount := by
  simp [T.Logf, T.errorCount, List.filter_append]

/-- A log line leaves the failed flag alone. -/
theorem failed_Logf (t : T) (format : String) (args : List Arg) :
    (t.Logf format args).failed = t.failed := rfl

/-- A check reports one failure when the values differ and none otherwise. -/
theorem errorCount_CheckEquals (t : T) (expected actual : Value) :
    (CheckEquals t expected actual).errorCount
      = t.errorCount + (if interfaceEq expected actual then 0 else 1) := by
  cases h : interfaceEq expected actual <;>
    simp [CheckEquals, h, T.Errorf, T.errorCount, List.filter_append]

/-- A check marks the test as failed exactly when the values differ. -/
theorem failed_CheckEquals (t : T) (expected actual : Value) :
    (CheckEquals t expected actual).failed
      = (t.failed || !interfaceEq expected actual) := by
  cases h : interfaceEq expected actual <;> simp [CheckEquals, h, T.Errorf]

/-! ## `CreateEmptyImage` -/

/-- C1. `CreateEmptyImage` propagates the first remote error unmodified: when
the create call fails with `e` it returns exactly `e` and the create call is the
only call it issued (no fetch); when the create call succeeds and the fetch
fails with `e2` it returns exactly `e2`. -/
theorem CreateEmptyImage_propagates_first_error {σ : Type}
    (RandomString : String → Nat → String) (client : ServiceClient σ) (w : World σ) :
    (∀ (image : Option Image) (e : GoError) (s : σ),
      client.imagesCreate (CreateEmptyImage.createOpts (RandomString "ACPTTEST" 16)) w.server
          = ((image, some e), s) →
      ∃ (r : Option Image) (w1 : World σ),
        CreateEmptyImage RandomString client w = Outcome.returned (r, some e) w1
        ∧ w1.trace = w.trace
            ++ [Call.imagesCreate (CreateEmptyImage.createOpts (RandomString "ACPTTEST" 16))])
    ∧ (∀ (image : Image) (s : σ) (newImage : Option Image) (e2 : GoError) (s2 : σ),
      client.imagesCreate (CreateEmptyImage.createOpts (RandomString "ACPTTEST" 16)) w.server
          = ((some image, none), s) →
      client.imagesGet image.ID s = ((newImage, some e2), s2) →
      ∃ (r : Option Image) (w1 : World σ),
        CreateEmptyImage RandomString client w = Outcome.returned (r, some e2) w1) := by
  refine ⟨?_, ?_⟩
  · intro image e s h
    exact ⟨_, _, CreateEmptyImage_eq_of_create_error RandomString client w image e s h, rfl⟩
  · intro image s newImage e2 s2 h h2
    exact ⟨_, _, CreateEmptyImage_eq_of_fetch_error RandomString client w image s newImage e2 s2 h h2⟩

/-- Witness for C1: a service that refuses the create call, and a service that
creates the image but cannot find it again. -/
theorem CreateEmptyImage_propagates_first_error_witness :
    (∃ (r : Option Image) (w1 : World Nat),
        CreateEmptyImage fixedName
            (scriptedClient (none, some forbidden) (none, none) none (none, none) (none, none))
            freshWorld
          = Outcome.returned (r, some forbidden) w1
        ∧ w1.trace = freshWorld.trace
            ++ [Call.imagesCreate (CreateEmptyImage.createOpts (fixedName "ACPTTEST" 16))])
    ∧ (∃ (r : Option Image) (w1 : World Nat),
        CreateEmptyImage fixedName
            (scriptedClient (some (sampleImage "img-1" "ACPTTEST-fixed" (Value.str "x86_64")), none)
              (none, some notFound) none (none, none) (none, none))
            freshWorld
          = Outcome.returned (r, some notFound) w1) :=
  ⟨(CreateEmptyImage_propagates_first_error fixedName
      (scriptedClient (none, some forbidden) (none, none) none (none, none) (none, none))
      freshWorld).1 none forbidden 1 rfl,
   (CreateEmptyImage_propagates_first_error fixedName
      (scriptedClient (some (sampleImage "img-1" "ACPTTEST-fixed" (Value.str "x86_64")), none)
        (none, some notFound) none (none, none) (none, none))
      freshWorld).2 (sampleImage "img-1" "ACPTTEST-fixed" (Value.str "x86_64")) 1 none notFound 2
        rfl rfl⟩

/-- C2. When both remote calls succeed, `CreateEmptyImage` returns a nil error
together with the image the fetch call returned (not the one the create call
returned), and the fetch call was issued, right after the create call, with the
identifier of the image the create call returned. -/
theorem CreateEmptyImage_returns_fetched_image {σ : Type}
    (RandomString : String → Nat → String) (client : ServiceClient σ) (w : World σ)
    (image : Image) (s : σ) (newImage : Image) (s2 : σ)
    (hcreate :
      client.imagesCreate (CreateEmptyImage.createOpts (RandomString "ACPTTEST" 16)) w.server
        = ((some image, none), s))
    (hget : client.imagesGet image.ID s = ((some newImage, none), s2)) :
    ∃ w1 : World σ,
      CreateEmptyImage RandomString client w = Outcome.returned (some newImage, none) w1
      ∧ w1.trace = w.trace
          ++ [Call.imagesCreate (CreateEmptyImage.createOpts (RandomString "ACPTTEST" 16)),
              Call.imagesGet image.ID]
      ∧ w1.server = s2 :=
  ⟨_, CreateEmptyImage_eq_of_success RandomString client w image s newImage s2 hcreate hget,
    rfl, rfl⟩

/-- Witness for C2: the service creates image `img-1` and the fetch returns a
record that differs from the created one. -/
theorem CreateEmptyImage_returns_fetched_image_witness :
    ∃ w1 : World Nat,
      CreateEmptyImage fixedName
          (scriptedClient (some (sampleImage "img-1" "as-created" Value.nil), none)
            (some (sampleImage "img-1" "ACPTTEST-fixed" (Value.str "x86_64")), none)
            none (none, none) (none, none))
          freshWorld
        = Outcome.returned (some (sampleImage "img-1" "ACPTTEST-fixed" (Value.str "x86_64")), none) w1
      ∧ w1.trace = freshWorld.trace
          ++ [Call.imagesCreate (CreateEmptyImage.createOpts (fixedName "ACPTTEST" 16)),
              Call.imagesGet (sampleImage "img-1" "as-created" Value.nil).ID]
      ∧ w1.server = 2 :=
  CreateEmptyImage_returns_fetched_image fixedName
    (scriptedClient (some (sampleImage "img-1" "as-created" Value.nil), none)
      (some (sampleImage "img-1" "ACPTTEST-fixed" (Value.str "x86_64")), none)
      none (none, none) (none, none))
    freshWorld (sampleImage "img-1" "as-created" Value.nil) 1
    (sampleImage "img-1" "ACPTTEST-fixed" (Value.str "x86_64")) 2 rfl rfl

/-- C3. Whatever the client and the test context, the first call
`CreateEmptyImage` issues is the create call, its payload has the drawn name,
container format "bare", disk format "qcow2", zero minimum disk and RAM,
protected false, private visibility, the single property architecture=x86_64
and the tags foo, bar, baz in that order, and no later call is a create call.
The payload is a function of the name alone. -/
theorem CreateEmptyImage_create_payload {σ : Type}
    (RandomString : String → Nat → String) (client : ServiceClient σ) (w : World σ) :
    ∃ rest : List Call,
      (CreateEmptyImage RandomString client w).world.trace
        = w.trace
          ++ Call.imagesCreate
              { Name := RandomString "ACPTTEST" 16
                ContainerFormat := "bare"
                DiskFormat := "qcow2"
                MinDisk := 0
                MinRAM := 0
                Protected := some false
                Visibility := some ImageVisibility.ImageVisibilityPrivate
                Properties := [("architecture", "x86_64")]
                Tags := ["foo", "bar", "baz"] }
            :: rest
      ∧ ∀ c ∈ rest, ∃ id, c = Call.imagesGet id := by
  rcases h : client.imagesCreate (CreateEmptyImage.createOpts (RandomString "ACPTTEST" 16))
      w.server with ⟨⟨image, err⟩, s⟩
  cases err with
  | some e =>
    exact ⟨[], by
      simp [CreateEmptyImage_eq_of_create_error RandomString client w image e s h,
        Outcome.world, CreateEmptyImage.createOpts]⟩
  | none =>
    cases image with
    | none =>
      exact ⟨[], by
        simp [CreateEmptyImage_eq_of_create_nil RandomString client w s h,
          Outcome.world, CreateEmptyImage.createOpts]⟩
    | some image =>
      refine ⟨[Call.imagesGet image.ID], ?_, by simp⟩
      rcases h2 : client.imagesGet image.ID s with ⟨⟨newImage, err2⟩, s2⟩
      cases err2 with
      | some e2 =>
        simp [CreateEmptyImage_eq_of_fetch_error RandomString client w image s newImage e2 s2 h h2,
          Outcome.world, CreateEmptyImage.createOpts]
      | none =>
        cases newImage with
        | none =>
          simp [CreateEmptyImage_eq_of_fetch_nil RandomString client w image s s2 h h2,
            Outcome.world, CreateEmptyImage.createOpts]
        | some newImage =>
          simp [CreateEmptyImage_eq_of_success RandomString client w image s newImage s2 h h2,
            Outcome.world, CreateEmptyImage.createOpts]

/-- Counterexample to C4 as stated: the service stores the image under another
name and architecture; `CreateEmptyImage` still returns it with a nil error. -/
theorem CreateEmptyImage_returns_unchecked_image :
    (∃ w1 : World Nat,
      CreateEmptyImage fixedName
          (scriptedClient (some (sampleImage "img-1" "ACPTTEST-fixed" (Value.str "x86_64")), none)
            (some (sampleImage "img-1" "renamed" (Value.str "arm64")), none)
            none (none, none) (none, none))
          freshWorld
        = Outcome.returned (some (sampleImage "img-1" "renamed" (Value.str "arm64")), none) w1)
    ∧ (sampleImage "img-1" "renamed" (Value.str "arm64")).Name ≠ fixedName "ACPTTEST" 16
    ∧ mapIndex (sampleImage "img-1" "renamed" (Value.str "arm64")).Properties "architecture"
        ≠ Value.str "x86_64" := by
  refine ⟨⟨_, rfl⟩, by decide, ?_⟩
  simp [sampleImage, mapIndex]

/-- C4, amended. Whenever `CreateEmptyImage` returns with a nil error and the
test context is not marked as failed afterwards, it returns an image whose name
is the name put in the creation payload and whose architecture property is
"x86_64". -/
theorem CreateEmptyImage_result_matches_unless_failed {σ : Type}
    (RandomString : String → Nat → String) (client : ServiceClient σ) (w : World σ)
    (r : Option Image) (w1 : World σ)
    (hret : CreateEmptyImage RandomString client w = Outcome.returned (r, none) w1)
    (hok : w1.t.failed = false) :
    ∃ img : Image, r = some img
      ∧ img.Name = (CreateEmptyImage.createOpts (RandomString "ACPTTEST" 16)).Name
      ∧ mapIndex img.Properties "architecture" = Value.str "x86_64" := by
  rcases h : client.imagesCreate (CreateEmptyImage.createOpts (RandomString "ACPTTEST" 16))
      w.server with ⟨⟨image, err⟩, s⟩
  cases err with
  | some e =>
    rw [CreateEmptyImage_eq_of_create_error RandomString client w image e s h] at hret
    simp at hret
  | none =>
    cases image with
    | none =>
      rw [CreateEmptyImage_eq_of_create_nil RandomString client w s h] at hret
      simp at hret
    | some image =>
      rcases h2 : client.imagesGet image.ID s with ⟨⟨newImage, err2⟩, s2⟩
      cases err2 with
      | some e2 =>
        rw [CreateEmptyImage_eq_of_fetch_error RandomString client w image s newImage e2 s2 h h2]
          at hret
        simp at hret
      | none =>
        cases newImage with
        | none =>
          rw [CreateEmptyImage_eq_of_fetch_nil RandomString client w image s s2 h h2] at hret
          simp at hret
        | some newImage =>
          rw [CreateEmptyImage_eq_of_success RandomString client w image s newImage s2 h h2]
            at hret
          simp only [Outcome.returned.injEq, Prod.mk.injEq, and_true] at hret
          obtain ⟨hr, hw⟩ := hret
          subst hw
          simp only [failed_CheckEquals, failed_Logf, Bool.or_eq_false_iff,
            Bool.not_eq_false_eq_eq_true, interfaceEq_str_iff] at hok
          obtain ⟨⟨_, hname⟩, harch⟩ := hok
          refine ⟨newImage, hr.symm, ?_, harch⟩
          simpa [CreateEmptyImage.createOpts] using hname

/-- Witness for C4, amended: the service stores and returns the image as it
was requested. -/
theorem CreateEmptyImage_result_matches_unless_failed_witness :
    ∃ img : Image, some (sampleImage "img-1" "ACPTTEST-fixed" (Value.str "x86_64")) = some img
      ∧ img.Name = (CreateEmptyImage.createOpts (fixedName "ACPTTEST" 16)).Name
      ∧ mapIndex img.Properties "architecture" = Value.str "x86_64" :=
  CreateEmptyImage_result_matches_unless_failed fixedName
    (scriptedClient (some (sampleImage "img-1" "ACPTTEST-fixed" (Value.str "x86_64")), none)
      (some (sampleImage "img-1" "ACPTTEST-fixed" (Value.str "x86_64")), none)
      none (none, none) (none, none))
    freshWorld (some (sampleImage "img-1" "ACPTTEST-fixed" (Value.str "x86_64")))
    ⟨⟨[⟨Level.log, "Attempting to create image: %s", [Arg.str "ACPTTEST-fixed"]⟩,
        ⟨Level.log, "Created image %s: %#v",
          [Arg.str "ACPTTEST-fixed",
            Arg.image (some (sampleImage "img-1" "ACPTTEST-fixed" (Value.str "x86_64")))]⟩],
        false⟩, 2,
      [Call.imagesCreate (CreateEmptyImage.createOpts "ACPTTEST-fixed"), Call.imagesGet "img-1"]⟩
    rfl rfl

/-- C9. The two equality checks of `CreateEmptyImage` are not fatal and do not
change what it returns: when create and fetch both succeed it returns the
fetched image with a nil error whether or not the fetched name and architecture
match; each failing check reports exactly one failure on the test context, and
the test is marked as failed exactly when it was already or a check failed. -/
theorem CreateEmptyImage_checks_are_not_fatal {σ : Type}
    (RandomString : String → Nat → String) (client : ServiceClient σ) (w : World σ)
    (image : Image) (s : σ) (newImage : Image) (s2 : σ)
    (hcreate :
      client.imagesCreate (CreateEmptyImage.createOpts (RandomString "ACPTTEST" 16)) w.server
        = ((some image, none), s))
    (hget : client.imagesGet image.ID s = ((some newImage, none), s2)) :
    ∃ w1 : World σ,
      CreateEmptyImage RandomString client w = Outcome.returned (some newImage, none) w1
      ∧ w1.t.errorCount
          = w.t.errorCount
            + (if newImage.Name = RandomString "ACPTTEST" 16 then 0 else 1)
            + (if interfaceEq (mapIndex newImage.Properties "architecture") (Value.str "x86_64")
                then 0 else 1)
      ∧ w1.t.failed
          = (w.t.failed
              || !decide (newImage.Name = RandomString "ACPTTEST" 16)
              || !interfaceEq (mapIndex newImage.Properties "architecture")
                    (Value.str "x86_64")) := by
  refine ⟨_, CreateEmptyImage_eq_of_success RandomString client w image s newImage s2 hcreate hget,
    ?_, ?_⟩
  · simp [errorCount_CheckEquals, errorCount_Logf, interfaceEq]
  · simp [failed_CheckEquals, failed_Logf, interfaceEq]

/-- Witness for C9: the fetched image carries another name and another
architecture, so both checks fail; the image is returned all the same. -/
theorem CreateEmptyImage_checks_are_not_fatal_witness :
    ∃ w1 : World Nat,
      CreateEmptyImage fixedName
          (scriptedClient (some (sampleImage "img-1" "ACPTTEST-fixed" (Value.str "x86_64")), none)
            (some (sampleImage "img-1" "renamed" (Value.str "arm64")), none)
            none (none, none) (none, none))
          freshWorld
        = Outcome.returned (some (sampleImage "img-1" "renamed" (Value.str "arm64")), none) w1
      ∧ w1.t.errorCount
          = freshWorld.t.errorCount
            + (if (sampleImage "img-1" "renamed" (Value.str "arm64")).Name
                  = fixedName "ACPTTEST" 16 then 0 else 1)
            + (if interfaceEq
                  (mapIndex (sampleImage "img-1" "renamed" (Value.str "arm64")).Properties
                    "architecture")
                  (Value.str "x86_64")
                then 0 else 1)
      ∧ w1.t.failed
          = (freshWorld.t.failed
              || !decide ((sampleImage "img-1" "renamed" (Value.str "arm64")).Name
                    = fixedName "ACPTTEST" 16)
              || !interfaceEq
                    (mapIndex (sampleImage "img-1" "renamed" (Value.str "arm64")).Properties
                      "architecture")
                    (Value.str "x86_64")) :=
  CreateEmptyImage_checks_are_not_fatal fixedName
    (scriptedClient (some (sampleImage "img-1" "ACPTTEST-fixed" (Value.str "x86_64")), none)
      (some (sampleImage "img-1" "renamed" (Value.str "arm64")), none)
      none (none, none) (none, none))
    freshWorld (sampleImage "img-1" "ACPTTEST-fixed" (Value.str "x86_64")) 1
    (sampleImage "img-1" "renamed" (Value.str "arm64")) 2 rfl rfl

/-! ## `DeleteImage` -/

/-- C5. `DeleteImage` issues exactly one remote call, the delete call with the
identifier of the image it was given.  When that call reports an error (for
instance because the image does not exist) the test is terminated by a fatal
failure: the only line written is the fatal one, never the "Deleted image"
line.  When the call succeeds the helper returns, the failed flag is unchanged,
no failure is reported, and the only line written is the log line naming the
identifier. -/
theorem DeleteImage_fail_fast {σ : Type} (client : ServiceClient σ) (image : Image)
    (w : World σ) :
    (DeleteImage client (some image) w).world.trace = w.trace ++ [Call.imagesDelete image.ID]
    ∧ (∀ (e : GoError) (s : σ), client.imagesDelete image.ID w.server = (some e, s) →
        ∃ w1 : World σ, DeleteImage client (some image) w = Outcome.fatal w1
          ∧ w1.t.failed = true
          ∧ w1.t.output = w.t.output
              ++ [⟨Level.fatal, "Unable to delete image %s: %v",
                    [Arg.str image.ID, Arg.err e]⟩])
    ∧ (∀ s : σ, client.imagesDelete image.ID w.server = (none, s) →
        ∃ w1 : World σ, DeleteImage client (some image) w = Outcome.returned () w1
          ∧ w1.t.failed = w.t.failed
          ∧ w1.t.errorCount = w.t.errorCount
          ∧ w1.t.output = w.t.output
              ++ [⟨Level.log, "Deleted image: %s", [Arg.str image.ID]⟩]) := by
  refine ⟨?_, ?_, ?_⟩
  · rcases h : client.imagesDelete image.ID w.server with ⟨err, s⟩
    cases err <;> simp [DeleteImage, h, Outcome.world]
  · intro e s h
    exact ⟨_, DeleteImage_eq_of_error client image w e s h, rfl, rfl⟩
  · intro s h
    exact ⟨_, DeleteImage_eq_of_success client image w s h, rfl, errorCount_Logf _ _ _, rfl⟩

/-- Witness for C5: deleting an image the service does not know is fatal, and
deleting one it knows writes the single log line. -/
theorem DeleteImage_fail_fast_witness :
    (∃ w1 : World Nat,
        DeleteImage
            (scriptedClient (none, none) (none, none) (some notFound) (none, none) (none, none))
            (some (sampleImage "img-404" "gone" Value.nil)) freshWorld
          = Outcome.fatal w1
        ∧ w1.t.failed = true
        ∧ w1.t.output = freshWorld.t.output
            ++ [⟨Level.fatal, "Unable to delete image %s: %v",
                  [Arg.str (sampleImage "img-404" "gone" Value.nil).ID, Arg.err notFound]⟩])
    ∧ (∃ w1 : World Nat,
        DeleteImage
            (scriptedClient (none, none) (none, none) none (none, none) (none, none))
            (some (sampleImage "img-1" "kept" Value.nil)) freshWorld
          = Outcome.returned () w1
        ∧ w1.t.failed = freshWorld.t.failed
        ∧ w1.t.errorCount = freshWorld.t.errorCount
        ∧ w1.t.output = freshWorld.t.output
            ++ [⟨Level.log, "Deleted image: %s",
                  [Arg.str (sampleImage "img-1" "kept" Value.nil).ID]⟩]) :=
  ⟨(DeleteImage_fail_fast
      (scriptedClient (none, none) (none, none) (some notFound) (none, none) (none, none))
      (sampleImage "img-404" "gone" Value.nil) freshWorld).2.1 notFound 1 rfl,
   (DeleteImage_fail_fast
      (scriptedClient (none, none) (none, none) none (none, none) (none, none))
      (sampleImage "img-1" "kept" Value.nil) freshWorld).2.2 1 rfl⟩

/-! ## `CreateTask` -/

/-- C6. Whatever the client, the test context and the source URL (the empty
string included), the first call `CreateTask` issues is the create-task call;
its payload has type "import" and an input map with exactly the three keys
image_properties, import_from_format and import_from, holding the two-entry map
container_format=bare, disk_format=raw, the string "raw" and the URL unchanged;
no later call is a create call. -/
theorem CreateTask_create_payload {σ : Type} (client : ServiceClient σ)
    (imageURL : String) (w : World σ) :
    ∃ (opts : TaskCreateOpts) (rest : List Call),
      (CreateTask client imageURL w).world.trace = w.trace ++ Call.tasksCreate opts :: rest
      ∧ (∀ c ∈ rest, ∃ id, c = Call.tasksGet id)
      ∧ opts.Type_ = "import"
      ∧ opts.Input.map Prod.fst = ["image_properties", "import_from_format", "import_from"]
      ∧ mapIndex opts.Input "import_from" = Value.str imageURL
      ∧ mapIndex opts.Input "import_from_format" = Value.str "raw"
      ∧ mapIndex opts.Input "image_properties"
          = Value.map [("container_format", Value.str "bare"), ("disk_format", Value.str "raw")] := by
  have hopts : (CreateTask.opts imageURL).Type_ = "import"
      ∧ (CreateTask.opts imageURL).Input.map Prod.fst
          = ["image_properties", "import_from_format", "import_from"]
      ∧ mapIndex (CreateTask.opts imageURL).Input "import_from" = Value.str imageURL
      ∧ mapIndex (CreateTask.opts imageURL).Input "import_from_format" = Value.str "raw"
      ∧ mapIndex (CreateTask.opts imageURL).Input "image_properties"
          = Value.map [("container_format", Value.str "bare"), ("disk_format", Value.str "raw")] := by
    simp [CreateTask.opts, mapIndex]
  rcases h : client.tasksCreate (CreateTask.opts imageURL) w.server with ⟨⟨task, err⟩, s⟩
  cases err with
  | some e =>
    refine ⟨CreateTask.opts imageURL, [], ?_, by simp, hopts⟩
    simp [CreateTask_eq_of_create_error client imageURL w task e s h, Outcome.world]
  | none =>
    cases task with
    | none =>
      refine ⟨CreateTask.opts imageURL, [], ?_, by simp, hopts⟩
      simp [CreateTask_eq_of_create_nil client imageURL w s h, Outcome.world]
    | some task =>
      refine ⟨CreateTask.opts imageURL, [Call.tasksGet task.ID], ?_, by simp, hopts⟩
      rcases h2 : client.tasksGet task.ID s with ⟨⟨newTask, err2⟩, s2⟩
      cases err2 with
      | some e2 =>
        simp [CreateTask_eq_of_fetch_error client imageURL w task s newTask e2 s2 h h2,
          Outcome.world]
      | none =>
        simp [CreateTask_eq_of_success client imageURL w task s newTask s2 h h2, Outcome.world]

/-- C7. `CreateTask` returns the fetched task or the first error: when the
create call fails with `e` it returns (nil, `e`) and issued no fetch call; when
the create call succeeds and the fetch call, issued with the created task's
identifier, fails with `e2` it returns (nil, `e2`); when both succeed it
returns the task the fetch call returned with a nil error.  For a client that
returns a non-nil task whenever it reports no error, `CreateTask` always
returns, and its task is non-nil exactly when its error is nil. -/
theorem CreateTask_returns_fetched_task_or_first_error {σ : Type}
    (client : ServiceClient σ) (imageURL : String) (w : World σ) :
    (∀ (task : Option Task) (e : GoError) (s : σ),
      client.tasksCreate (CreateTask.opts imageURL) w.server = ((task, some e), s) →
      ∃ w1 : World σ, CreateTask client imageURL w = Outcome.returned (none, some e) w1
        ∧ w1.trace = w.trace ++ [Call.tasksCreate (CreateTask.opts imageURL)])
    ∧ (∀ (task : Task) (s : σ) (newTask : Option Task) (e2 : GoError) (s2 : σ),
      client.tasksCreate (CreateTask.opts imageURL) w.server = ((some task, none), s) →
      client.tasksGet task.ID s = ((newTask, some e2), s2) →
      ∃ w1 : World σ, CreateTask client imageURL w = Outcome.returned (none, some e2) w1
        ∧ w1.trace = w.trace
            ++ [Call.tasksCreate (CreateTask.opts imageURL), Call.tasksGet task.ID])
    ∧ (∀ (task : Task) (s : σ) (newTask : Option Task) (s2 : σ),
      client.tasksCreate (CreateTask.opts imageURL) w.server = ((some task, none), s) →
      client.tasksGet task.ID s = ((newTask, none), s2) →
      ∃ w1 : World σ, CreateTask client imageURL w = Outcome.returned (newTask, none) w1
        ∧ w1.trace = w.trace
            ++ [Call.tasksCreate (CreateTask.opts imageURL), Call.tasksGet task.ID])
    ∧ ((∀ opts s, (client.tasksCreate opts s).1.2 = none → (client.tasksCreate opts s).1.1 ≠ none) →
      (∀ id s, (client.tasksGet id s).1.2 = none → (client.tasksGet id s).1.1 ≠ none) →
      ∃ (r : Option Task) (err : Option GoError) (w1 : World σ),
        CreateTask client imageURL w = Outcome.returned (r, err) w1
        ∧ (r ≠ none ↔ err = none)) := by
  refine ⟨?_, ?_, ?_, ?_⟩
  · intro task e s h
    exact ⟨_, CreateTask_eq_of_create_error client imageURL w task e s h, rfl⟩
  · intro task s newTask e2 s2 h h2
    exact ⟨_, CreateTask_eq_of_fetch_error client imageURL w task s newTask e2 s2 h h2, rfl⟩
  · intro task s newTask s2 h h2
    exact ⟨_, CreateTask_eq_of_success client imageURL w task s newTask s2 h h2, rfl⟩
  · intro hc hg
    rcases h : client.tasksCreate (CreateTask.opts imageURL) w.server with ⟨⟨task, err⟩, s⟩
    cases err with
    | some e =>
      exact ⟨_, _, _, CreateTask_eq_of_create_error client imageURL w task e s h, by simp⟩
    | none =>
      cases task with
      | none =>
        have := hc (CreateTask.opts imageURL) w.server
        simp [h] at this
      | some task =>
        rcases h2 : client.tasksGet task.ID s with ⟨⟨newTask, err2⟩, s2⟩
        cases err2 with
        | some e2 =>
          exact ⟨_, _, _,
            CreateTask_eq_of_fetch_error client imageURL w task s newTask e2 s2 h h2, by simp⟩
        | none =>
          have hne := hg task.ID s
          simp only [h2, forall_const] at hne
          exact ⟨_, _, _, CreateTask_eq_of_success client imageURL w task s newTask s2 h h2,
            by simpa using hne⟩

/-- Witness for C7: a service that refuses the create call, one that loses the
task before the fetch, and one that answers both calls. -/
theorem CreateTask_returns_fetched_task_or_first_error_witness :
    (∃ w1 : World Nat,
        CreateTask
            (scriptedClient (none, none) (none, none) none (none, some forbidden) (none, none))
            ImportImageURL freshWorld
          = Outcome.returned (none, some forbidden) w1
        ∧ w1.trace = freshWorld.trace ++ [Call.tasksCreate (CreateTask.opts ImportImageURL)])
    ∧ (∃ w1 : World Nat,
        CreateTask
            (scriptedClient (none, none) (none, none) none
              (some (sampleTask "task-1" "import"), none) (none, some notFound))
            ImportImageURL freshWorld
          = Outcome.returned (none, some notFound) w1
        ∧ w1.trace = freshWorld.trace
            ++ [Call.tasksCreate (CreateTask.opts ImportImageURL),
                Call.tasksGet (sampleTask "task-1" "import").ID])
    ∧ (∃ w1 : World Nat,
        CreateTask
            (scriptedClient (none, none) (none, none) none
              (some (sampleTask "task-1" "import"), none)
              (some (sampleTask "task-1" "import"), none))
            ImportImageURL freshWorld
          = Outcome.returned (some (sampleTask "task-1" "import"), none) w1
        ∧ w1.trace = freshWorld.trace
            ++ [Call.tasksCreate (CreateTask.opts ImportImageURL),
                Call.tasksGet (sampleTask "task-1" "import").ID])
    ∧ (∃ (r : Option Task) (err : Option GoError) (w1 : World Nat),
        CreateTask
            (scriptedClient (none, none) (none, none) none
              (some (sampleTask "task-1" "import"), none)
              (some (sampleTask "task-1" "import"), none))
            ImportImageURL freshWorld
          = Outcome.returned (r, err) w1
        ∧ (r ≠ none ↔ err = none)) :=
  ⟨(CreateTask_returns_fetched_task_or_first_error
      (scriptedClient (none, none) (none, none) none (none, some forbidden) (none, none))
      ImportImageURL freshWorld).1 none forbidden 1 rfl,
   (CreateTask_returns_fetched_task_or_first_error
      (scriptedClient (none, none) (none, none) none
        (some (sampleTask "task-1" "import"), none) (none, some notFound))
      ImportImageURL freshWorld).2.1 (sampleTask "task-1" "import") 1 none notFound 2 rfl rfl,
   (CreateTask_returns_fetched_task_or_first_error
      (scriptedClient (none, none) (none, none) none
        (some (sampleTask "task-1" "import"), none)
        (some (sampleTask "task-1" "import"), none))
      ImportImageURL freshWorld).2.2.1 (sampleTask "task-1" "import") 1
        (some (sampleTask "task-1" "import")) 2 rfl rfl,
   (CreateTask_returns_fetched_task_or_first_error
      (scriptedClient (none, none) (none, none) none
        (some (sampleTask "task-1" "import"), none)
        (some (sampleTask "task-1" "import"), none))
      ImportImageURL freshWorld).2.2.2
        (fun _ _ _ => Option.some_ne_none _) (fun _ _ _ => Option.some_ne_none _)⟩

/-- Counterexample to C8 as stated: the service answers the fetch with a task
that has an empty identifier and type "export"; `CreateTask` returns it with a
nil error. -/
theorem CreateTask_returns_unchecked_task :
    (∃ w1 : World Nat,
      CreateTask
          (scriptedClient (none, none) (none, none) none
            (some (sampleTask "task-1" "import"), none) (some (sampleTask "" "export"), none))
          ImportImageURL freshWorld
        = Outcome.returned (some (sampleTask "" "export"), none) w1)
    ∧ (sampleTask "" "export").ID = ""
    ∧ (sampleTask "" "export").Type_ ≠ "import" :=
  ⟨⟨_, rfl⟩, rfl, by decide⟩

/-- C8, amended. Against a faithful service, creating an import task yields a
fetched task whose identifier is non-empty and whose type is "import": if every
task the create call returns without error has a non-empty identifier and the
type that was requested, and a fetch by that identifier right after the create
returns a task with the same identifier and type, then whenever `CreateTask`
returns a task with a nil error that task has a non-empty identifier and type
"import". -/
theorem CreateTask_result_on_faithful_service {σ : Type} (client : ServiceClient σ)
    (imageURL : String) (w : World σ) (task : Task) (w1 : World σ)
    (hcreate : ∀ (opts : TaskCreateOpts) (s : σ) (created : Task) (s1 : σ),
      client.tasksCreate opts s = ((some created, none), s1) →
      created.ID ≠ "" ∧ created.Type_ = opts.Type_)
    (hfetch : ∀ (opts : TaskCreateOpts) (s : σ) (created : Task) (s1 : σ)
        (fetched : Task) (s2 : σ),
      client.tasksCreate opts s = ((some created, none), s1) →
      client.tasksGet created.ID s1 = ((some fetched, none), s2) →
      fetched.ID = created.ID ∧ fetched.Type_ = created.Type_)
    (hret : CreateTask client imageURL w = Outcome.returned (some task, none) w1) :
    task.ID ≠ "" ∧ task.Type_ = "import" := by
  rcases h : client.tasksCreate (CreateTask.opts imageURL) w.server with ⟨⟨created, err⟩, s⟩
  cases err with
  | some e =>
    rw [CreateTask_eq_of_create_error client imageURL w created e s h] at hret
    simp at hret
  | none =>
    cases created with
    | none =>
      rw [CreateTask_eq_of_create_nil client imageURL w s h] at hret
      simp at hret
    | some created =>
      rcases h2 : client.tasksGet created.ID s with ⟨⟨newTask, err2⟩, s2⟩
      cases err2 with
      | some e2 =>
        rw [CreateTask_eq_of_fetch_error client imageURL w created s newTask e2 s2 h h2] at hret
        simp at hret
      | none =>
        rw [CreateTask_eq_of_success client imageURL w created s newTask s2 h h2] at hret
        simp only [Outcome.returned.injEq, Prod.mk.injEq, and_true] at hret
        obtain ⟨hr, _⟩ := hret
        subst hr
        obtain ⟨hid, htype⟩ := hcreate (CreateTask.opts imageURL) w.server created s h
        obtain ⟨hid2, htype2⟩ :=
          hfetch (CreateTask.opts imageURL) w.server created s task s2 h h2
        refine ⟨by rw [hid2]; exact hid, ?_⟩
        rw [htype2, htype]
        rfl

/-- Witness for C8, amended: the in-memory task service is faithful, and the
task `CreateTask` gets back from it is the import task `task-0`. -/
theorem CreateTask_result_on_faithful_service_witness :
    (⟨"task-0", "import", (CreateTask.opts ImportImageURL).Input⟩ : Task).ID ≠ ""
    ∧ (⟨"task-0", "import", (CreateTask.opts ImportImageURL).Input⟩ : Task).Type_ = "import" :=
  CreateTask_result_on_faithful_service memoryTaskClient ImportImageURL
    ⟨⟨[], false⟩, [], []⟩
    ⟨"task-0", "import", (CreateTask.opts ImportImageURL).Input⟩
    ⟨⟨[⟨Level.log, "Attempting to create an Imageservice import task with image: %s",
          [Arg.str ImportImageURL]⟩], false⟩,
      [⟨"task-0", "import", (CreateTask.opts ImportImageURL).Input⟩],
      [Call.tasksCreate (CreateTask.opts ImportImageURL), Call.tasksGet "task-0"]⟩
    (by
      intro opts s created s1 h
      simp only [memoryTaskClient, Prod.mk.injEq, Option.some.injEq, and_true] at h
      obtain ⟨hc, _⟩ := h
      subst hc
      refine ⟨?_, rfl⟩
      intro hempty
      have hlen := congrArg String.length hempty
      simp only [String.length_append] at hlen
      have hfive : "task-".length = 5 := by decide
      have hzero : "".length = 0 := by decide
      omega)
    (by
      intro opts s created s1 fetched s2 h h2
      simp only [memoryTaskClient, Prod.mk.injEq, Option.some.injEq, and_true] at h
      obtain ⟨hc, hs⟩ := h
      subst hc
      subst hs
      simp [memoryTaskClient] at h2
      obtain ⟨hf, _⟩ := h2
      subst hf
      exact ⟨rfl, rfl⟩)
    rfl

/-! ## The two create helpers compared -/

/-- C10. When the create call succeeds and the follow-up fetch fails,
`CreateEmptyImage` returns the (non-nil) image the create call produced together
with the error, whereas `CreateTask` returns a nil task together with the
error. -/
theorem create_helpers_differ_on_fetch_error {σ : Type} (client : ServiceClient σ)
    (w : World σ) :
    (∀ (RandomString : String → Nat → String) (image : Image) (s : σ)
        (newImage : Option Image) (e : GoError) (s2 : σ),
      client.imagesCreate (CreateEmptyImage.createOpts (RandomString "ACPTTEST" 16)) w.server
          = ((some image, none), s) →
      client.imagesGet image.ID s = ((newImage, some e), s2) →
      ∃ w1 : World σ,
        CreateEmptyImage RandomString client w = Outcome.returned (some image, some e) w1)
    ∧ (∀ (imageURL : String) (task : Task) (s : σ) (newTask : Option Task) (e : GoError)
        (s2 : σ),
      client.tasksCreate (CreateTask.opts imageURL) w.server = ((some task, none), s) →
      client.tasksGet task.ID s = ((newTask, some e), s2) →
      ∃ w1 : World σ, CreateTask client imageURL w = Outcome.returned (none, some e) w1) := by
  refine ⟨?_, ?_⟩
  · intro RandomString image s newImage e s2 h h2
    exact ⟨_, CreateEmptyImage_eq_of_fetch_error RandomString client w image s newImage e s2 h h2⟩
  · intro imageURL task s newTask e s2 h h2
    exact ⟨_, CreateTask_eq_of_fetch_error client imageURL w task s newTask e s2 h h2⟩

/-- Witness for C10: one service that creates an image and a task and then
finds neither. -/
theorem create_helpers_differ_on_fetch_error_witness :
    (∃ w1 : World Nat,
        CreateEmptyImage fixedName
            (scriptedClient (some (sampleImage "img-1" "ACPTTEST-fixed" (Value.str "x86_64")), none)
              (none, some notFound) none
              (some (sampleTask "task-1" "import"), none) (none, some notFound))
            freshWorld
          = Outcome.returned
              (some (sampleImage "img-1" "ACPTTEST-fixed" (Value.str "x86_64")), some notFound) w1)
    ∧ (∃ w1 : World Nat,
        CreateTask
            (scriptedClient (some (sampleImage "img-1" "ACPTTEST-fixed" (Value.str "x86_64")), none)
              (none, some notFound) none
              (some (sampleTask "task-1" "import"), none) (none, some notFound))
            ImportImageURL freshWorld
          = Outcome.returned (none, some notFound) w1) :=
  ⟨(create_helpers_differ_on_fetch_error
      (scriptedClient (some (sampleImage "img-1" "ACPTTEST-fixed" (Value.str "x86_64")), none)
        (none, some notFound) none
        (some (sampleTask "task-1" "import"), none) (none, some notFound))
      freshWorld).1 fixedName (sampleImage "img-1" "ACPTTEST-fixed" (Value.str "x86_64")) 1 none
        notFound 2 rfl rfl,
   (create_helpers_differ_on_fetch_error
      (scriptedClient (some (sampleImage "img-1" "ACPTTEST-fixed" (Value.str "x86_64")), none)
        (none, some notFound) none
        (some (sampleTask "task-1" "import"), none) (none, some notFound))
      freshWorld).2 ImportImageURL (sampleTask "task-1" "import") 1 none notFound 2 rfl rfl⟩

end ImageService
